import Mathlib

/-!
Shallow embedding of `src/scripts/manage.js` (claude-relay-service process
manager) and verification of the frozen claims about it.

The script is a single-file Node.js CLI controller for one long-running
service process.  The embedding below translates its operations into pure
Lean functions:

* filesystem state (`Fs`): the PID file and the startup-marker file, the two
  files the controller itself reads and writes;
* the OS liveness probe `process.kill(pid, 0)` and the mutable outside world
  (child-written marker file, child-written log, signal failures) become
  explicit environment records (`StopEnv`, `DetectorEnv`, `RestartEnv`,
  `CliEnv`) whose fields are time-indexed functions — one value per poll
  tick, since the child process mutates them concurrently;
* the `setInterval` polling loops of the daemon-start readiness detector and
  of `stop()` become structural fuel recursion over the tick counter, with
  the fuel equal to the hard attempt ceiling in the source (30 in both);
* `process.exit(n)` and the JS return values become fields of explicit
  result records;
* JavaScript peculiarities that the claims hinge on — `parseInt` returning
  `NaN`, `NaN`/`0`/`null` being falsy, `x || 50` defaulting — are modelled
  exactly (`jsParseInt` returns `Option Int` with `none` standing for `NaN`,
  and truthiness is tested where the source tests it).

JSON parsing of the marker file is abstracted to its observable outcome
(`MarkerContent.invalid` for a `JSON.parse` throw, `MarkerContent.valid pid
port` for a parsed `{pid, port}` object); the source only ever inspects
those two outcomes.  The stdout log is modelled as its list of lines: the
source splits the log on newlines before any inspection, and every needle string it
searches for is newline-free, so `join`-then-`includes` coincides with
per-line search on the retained suffix.
-/

namespace ManageJs

/-- JavaScript whitespace characters relevant to `parseInt` / `trim`
(space, tab, line feed, carriage return, vertical tab, form feed). -/
def isJsSpace (c : Char) : Bool :=
  c = ' ' || c = '\t' || c = '\n' || c = '\r' || c = '\x0b' || c = '\x0c'

/-- Decimal digit value, as consumed by `parseInt` with radix 10. -/
def digitVal10 (c : Char) : Option Nat :=
  if '0' ≤ c ∧ c ≤ '9' then some (c.toNat - '0'.toNat) else none

/-- Hexadecimal digit value, as consumed by `parseInt` after a `0x` prefix. -/
def digitVal16 (c : Char) : Option Nat :=
  if '0' ≤ c ∧ c ≤ '9' then some (c.toNat - '0'.toNat)
  else if 'a' ≤ c ∧ c ≤ 'f' then some (c.toNat - 'a'.toNat + 10)
  else if 'A' ≤ c ∧ c ≤ 'F' then some (c.toNat - 'A'.toNat + 10)
  else none

/-- Longest digit run at the head of the character list, accumulated into a
number; `none` when no digit at all was consumed (JS `NaN`). -/
def parseDigits (dv : Char → Option Nat) (base : Nat) : List Char → Option Nat → Option Nat
  | [], acc => acc
  | c :: cs, acc =>
    match dv c with
    | some d => parseDigits dv base cs (some (acc.getD 0 * base + d))
    | none => acc

/-- JavaScript `parseInt(s)` (no explicit radix): skip leading whitespace,
optional sign, optional `0x`/`0X` hex prefix, then the longest digit run;
`none` models `NaN`.  Trailing garbage is ignored, exactly as in JS. -/
def jsParseIntList (cs0 : List Char) : Option Int :=
  let cs := cs0.dropWhile isJsSpace
  let sgn : Int := match cs with
    | '-' :: _ => -1
    | _ => 1
  let cs2 : List Char := match cs with
    | '-' :: r => r
    | '+' :: r => r
    | _ => cs
  match cs2 with
  | '0' :: c :: r =>
    if c = 'x' ∨ c = 'X' then (parseDigits digitVal16 16 r none).map (fun n => sgn * n)
    else (parseDigits digitVal10 10 cs2 none).map (fun n => sgn * n)
  | _ => (parseDigits digitVal10 10 cs2 none).map (fun n => sgn * n)

/-- JavaScript `parseInt` on a string. -/
def jsParseInt (s : String) : Option Int :=
  jsParseIntList s.toList

/-- JavaScript `String.prototype.trim`. -/
def jsTrim (s : String) : String :=
  String.mk (((s.toList.dropWhile isJsSpace).reverse.dropWhile isJsSpace).reverse)

/-- Observable outcome of `JSON.parse` on the startup-marker file:
`invalid` when the parse throws (file mid-write), `valid pid port` for a
parsed `{pid, port}` object. -/
inductive MarkerContent where
  | invalid
  | valid (pid : Int) (port : Int)
deriving DecidableEq

/-- Controller-visible filesystem state: the PID file (raw text content) and
the startup-marker file.  These are the only files `manage.js` itself
creates or deletes. -/
structure Fs where
  pid_file : Option String
  marker : Option MarkerContent
deriving DecidableEq

/-- Value of `getPid()`: `null` when the PID file is absent (or unreadable),
`nan` when `parseInt` of its trimmed content fails, otherwise the number. -/
inductive PidVal where
  | null
  | nan
  | num (n : Int)
deriving DecidableEq

/-- `ServiceManager.getPid` (manage.js lines 26-36):
`parseInt(readFileSync(PID_FILE).trim())` when the file exists, else null. -/
def getPid (fs : Fs) : PidVal :=
  match fs.pid_file with
  | none => PidVal.null
  | some c =>
    match jsParseInt (jsTrim c) with
    | none => PidVal.nan
    | some n => PidVal.num n

/-- Result shape of `getStatus()`: `{running, pid}` with `pid === null`
whenever `running` is false. -/
structure Status where
  running : Bool
  pid : Option Int
deriving DecidableEq

/-- `ServiceManager.getStatus` (lines 72-78).  The JS test is
`if (pid && this.isProcessRunning(pid))`: `null`, `NaN` and `0` are all
falsy, so only a nonzero parsed number is ever probed for liveness.
`isRunning` is the OS probe `process.kill(pid, 0)` (true = no throw). -/
def getStatus (fs : Fs) (isRunning : Int → Bool) : Status :=
  match getPid fs with
  | PidVal.num n =>
    if n = 0 then ⟨false, none⟩
    else if isRunning n then ⟨true, some n⟩
    else ⟨false, none⟩
  | _ => ⟨false, none⟩

/-- `ServiceManager.removePidFile` (lines 56-70): unlink the PID file if it
exists and the startup-marker file if it exists; both end up absent in every
case (I/O errors are caught and logged, not modelled). -/
def removePidFile (_fs : Fs) : Fs :=
  ⟨none, none⟩

/-- Outcome of the guard-and-spawn part of `ServiceManager.start`
(lines 80-117 for daemon mode, 80-96 and 222-246 for foreground):
`rejected` reflects the early `return false` when `getStatus().running`. -/
structure StartView where
  rejected : Bool
  fs : Fs
deriving DecidableEq

/-- `ServiceManager.start` up to and including the pid write: if the status
reports running, return false with no side effect; otherwise delete any
stale startup marker, spawn (obtaining `newPid`), and write the PID file. -/
def start (fs : Fs) (isRunning : Int → Bool) (newPid : Int) : StartView :=
  if (getStatus fs isRunning).running then ⟨true, fs⟩
  else ⟨false, ⟨some (toString newPid), none⟩⟩

/-! ## Readiness detector (daemon-mode start, lines 120-216) -/

/-- The success needle searched in the recent log
(line 167 of manage.js). -/
def successNeedle : String := "Claude Relay Service started on"

/-- The three failure needles searched in the recent log
(lines 180-182 of manage.js). -/
def failureNeedles : List String :=
  ["Failed to start server", "Application initialization failed",
   "Failed to connect to Redis"]

/-- Does `hay` begin with `needle`? (component of substring search). -/
def startsWithSeq : List Char → List Char → Bool
  | [], _ => true
  | _ :: _, [] => false
  | a :: as, b :: bs => a == b && startsWithSeq as bs

/-- Does `hay` contain `needle` as a contiguous run?  This is JS
`String.prototype.includes` on character lists. -/
def containsSeq (needle : List Char) : List Char → Bool
  | [] => startsWithSeq needle []
  | b :: bs => startsWithSeq needle (b :: bs) || containsSeq needle bs

/-- JS `line.includes(needle)`. -/
def lineIncludes (line needle : String) : Bool :=
  containsSeq needle.toList line.toList

/-- The split-on-newline, keep-last-30 window — the most recent (at most) 30 lines
of the stdout log (line 164 of manage.js). -/
def recentLines (ls : List String) : List String :=
  ls.drop (ls.length - 30)

/-- Does the retained recent window of the log contain the needle?  The
source joins the recent lines with a newline and calls `includes`; every
needle is newline-free, so this per-line search is the same test. -/
def recentHas (ls : List String) (needle : String) : Bool :=
  (recentLines ls).any (fun l => lineIncludes l needle)

/-- Outcome of the fallback log scan of one tick (lines 161-204):
`none` log (file absent / read throw) and needle-free logs both leave the
tick unresolved. -/
inductive ScanResult where
  | success
  | failure
  | nothing
deriving DecidableEq

/-- The fallback log scan of one tick: success needle first, then the three
failure needles, on the recent window only. -/
def logScan : Option (List String) → ScanResult
  | none => ScanResult.nothing
  | some ls =>
    if recentHas ls successNeedle then ScanResult.success
    else if failureNeedles.any (fun n => recentHas ls n) then ScanResult.failure
    else ScanResult.nothing

/-- Environment of one daemon-start readiness-polling run.  The child
process owns the marker file and the log, so they are time-indexed by the
tick counter; `aliveAt t` is the `process.kill(child.pid, 0)` probe at tick
`t`; `termThrows` records whether the best-effort SIGTERM of the failure
path would throw (the source ignores that error, line 194-198). -/
structure DetectorEnv where
  aliveAt : Nat → Bool
  markerAt : Nat → Option MarkerContent
  logAt : Nat → Option (List String)
  termThrows : Bool

/-- Resolution of one readiness tick, in the check order of the source. -/
inductive TickOutcome where
  | procDied
  | markerOk (port : Int)
  | logSuccess
  | logFailure
  | timedOut
  | keepWaiting
deriving DecidableEq

/-- `maxChecks = 30` (line 124). -/
def maxChecks : Nat := 30

/-- Poll interval of the readiness detector, milliseconds (line 216). -/
def checkIntervalMs : Nat := 200

/-- The marker check and everything after it in one tick: marker file
handled by the caller; here the fallback log scan (lines 161-204) and then
the tick-budget check (lines 206-215). -/
def detectTickRest (env : DetectorEnv) (t : Nat) : TickOutcome :=
  match logScan (env.logAt t) with
  | ScanResult.success => TickOutcome.logSuccess
  | ScanResult.failure => TickOutcome.logFailure
  | ScanResult.nothing =>
    if maxChecks ≤ t then TickOutcome.timedOut else TickOutcome.keepWaiting

/-- One readiness tick (the `setInterval` callback, lines 125-216), checks
in source order: liveness (line 129), then the startup marker (line 141,
authoritative only when its `pid` strictly equals the spawned pid; a parse
throw or a pid mismatch falls through), then the fallback log scan, then
the tick budget. -/
def detectTick (env : DetectorEnv) (childPid : Int) (t : Nat) : TickOutcome :=
  if env.aliveAt t = false then TickOutcome.procDied
  else
    match env.markerAt t with
    | some (MarkerContent.valid p port) =>
      if p = childPid then TickOutcome.markerOk port else detectTickRest env t
    | _ => detectTickRest env t

/-- Observable result of a completed readiness-polling run: the
`process.exit` code, whether `removePidFile()` was invoked (it deletes both
the PID file and the marker file), the pids sent a best-effort SIGTERM, the
tick at which the run resolved, and the resolving outcome. -/
structure DetectorResult where
  exitCode : Nat
  removedPid : Bool
  sigtermsTo : List Int
  resolvedAt : Nat
  outcome : TickOutcome
deriving DecidableEq

/-- Effects of a resolving tick outcome, as performed by the corresponding
branch of the source: process-died → exit 1 + cleanup (lines 129-138);
marker / log success → exit 0, files untouched (lines 141-176); log failure
→ cleanup + best-effort SIGTERM + exit 1 (lines 179-200); timeout → exit 0,
files untouched (lines 206-215). -/
def tickResult (childPid : Int) (t : Nat) : TickOutcome → DetectorResult
  | TickOutcome.procDied => ⟨1, true, [], t, TickOutcome.procDied⟩
  | TickOutcome.markerOk port => ⟨0, false, [], t, TickOutcome.markerOk port⟩
  | TickOutcome.logSuccess => ⟨0, false, [], t, TickOutcome.logSuccess⟩
  | TickOutcome.logFailure => ⟨1, true, [childPid], t, TickOutcome.logFailure⟩
  | TickOutcome.timedOut => ⟨0, false, [], t, TickOutcome.timedOut⟩
  | TickOutcome.keepWaiting => ⟨0, false, [], t, TickOutcome.keepWaiting⟩

/-- The readiness polling loop: run ticks `t, t+1, ...` until one resolves.
`fuel` is structural and equals the remaining tick budget; with the initial
call `fuel = maxChecks`, tick 30 always resolves (at worst to `timedOut`),
so the fuel-zero default is unreachable. -/
def detectorLoop (env : DetectorEnv) (childPid : Int) : Nat → Nat → DetectorResult
  | 0, t => ⟨0, false, [], t, TickOutcome.timedOut⟩
  | Nat.succ fuel, t =>
    match detectTick env childPid t with
    | TickOutcome.keepWaiting => detectorLoop env childPid fuel (t + 1)
    | r => tickResult childPid t r

/-- A completed daemon-start readiness-polling run (ticks 1..30). -/
def detectorRun (env : DetectorEnv) (childPid : Int) : DetectorResult :=
  detectorLoop env childPid maxChecks 1

/-! ## stop() (lines 249-295) -/

/-- Environment of a `stop()` run: `aliveAt t p` is the liveness probe of
pid `p` at second `t` (`t = 0` is the initial `getStatus` probe, `t = 1..30`
the once-per-second polls); the two flags say whether `process.kill` with
SIGTERM / SIGKILL would throw. -/
structure StopEnv where
  aliveAt : Nat → Int → Bool
  sigtermThrows : Bool
  sigkillThrows : Bool

/-- How a completed `stop()` run ended. -/
inductive StopOutcome where
  | notRunning
  | termFailed
  | graceful (tick : Nat)
  | forced
deriving DecidableEq

/-- `maxAttempts = 30` (line 265). -/
def maxStopAttempts : Nat := 30

/-- Observable result of a completed `stop()` run: final filesystem state,
the JS return value of `stop()`, the pids sent (attempted) SIGTERM and
SIGKILL, and the outcome. -/
structure StopResult where
  fs : Fs
  retVal : Bool
  termsTo : List Int
  killsTo : List Int
  outcome : StopOutcome
deriving DecidableEq

/-- The `checkExit` interval of `stop()` (lines 267-287), one tick per
second starting at `t = 1`: if the process is no longer alive, clear the
files and finish gracefully; once `t` reaches 30 with the process still
alive, attempt exactly one SIGKILL (its own failure is caught, line 282)
and clear the files regardless.  Returns (final fs, SIGKILLed pids,
outcome); fuel is structural and the initial call gives `t + fuel = 31`,
making the fuel-zero default unreachable. -/
def stopLoop (env : StopEnv) (p : Int) (fs : Fs) : Nat → Nat → Fs × List Int × StopOutcome
  | 0, _ => (fs, [], StopOutcome.forced)
  | Nat.succ fuel, t =>
    if env.aliveAt t p = false then (removePidFile fs, [], StopOutcome.graceful t)
    else if maxStopAttempts ≤ t then (removePidFile fs, [p], StopOutcome.forced)
    else stopLoop env p fs fuel (t + 1)

/-- A completed `stop()` run (lines 249-295): not running → cleanup and
return false; running with pid `p` → SIGTERM (a throw lands in the catch of
line 288: cleanup, return false), then the once-per-second poll loop. -/
def stop (env : StopEnv) (fs : Fs) : StopResult :=
  let st := getStatus fs (env.aliveAt 0)
  match st.running, st.pid with
  | true, some p =>
    if env.sigtermThrows then ⟨removePidFile fs, false, [p], [], StopOutcome.termFailed⟩
    else
      let r := stopLoop env p fs maxStopAttempts 1
      ⟨r.1, true, [p], r.2.1, r.2.2⟩
  | _, _ => ⟨removePidFile fs, false, [], [], StopOutcome.notRunning⟩

/-! ## restart() (lines 297-306) -/

/-- Environment of a `restart()` run (same shape as `StopEnv`, without the
SIGKILL flag: SIGKILL cannot occur before the 2-second mark). -/
structure RestartEnv where
  aliveAt : Nat → Int → Bool
  sigtermThrows : Bool

/-- Observable state of a `restart()` run at the instant the delayed
`start(daemon)` of line 302 fires (t = 2 s): `restart` calls `stop()` —
which returns after scheduling its polling interval — and schedules `start`
with `setTimeout(..., 2000)`, so only the stop polls of seconds 1 and 2 can
have run by then.  When the second poll and the timeout collide at t = 2 s
the model lets the poll run first (the ordering most favourable to stop
completion). -/
structure RestartView where
  fsAtStart : Fs
  stopRetVal : Bool
  oldPid : Option Int
  oldPidAliveAtStart : Bool
  delayMs : Nat
deriving DecidableEq

/-- `ServiceManager.restart` (lines 297-306), evaluated at the instant the
delayed `start` fires. -/
def restart (env : RestartEnv) (fs : Fs) : RestartView :=
  let st := getStatus fs (env.aliveAt 0)
  match st.running, st.pid with
  | true, some p =>
    if env.sigtermThrows then ⟨removePidFile fs, false, some p, env.aliveAt 2 p, 2000⟩
    else if env.aliveAt 1 p then
      if env.aliveAt 2 p then ⟨fs, true, some p, true, 2000⟩
      else ⟨removePidFile fs, true, some p, false, 2000⟩
    else ⟨removePidFile fs, true, some p, env.aliveAt 2 p, 2000⟩
  | _, _ => ⟨removePidFile fs, false, none, false, 2000⟩

/-! ## CLI dispatch and exit codes (main, lines 414-459) -/

/-- JS startsWith with a dash argument: is the first character a dash? -/
def startsWithDash (a : String) : Bool :=
  match a.toList with
  | [] => false
  | c :: _ => c == '-'

/-- The line-count argument of the `logs` command (lines 441-443): the first
argument that does not start with a dash and is not one of the command
spellings. -/
def logsArgPick (args : List String) : Option String :=
  args.find? (fun a => !startsWithDash a && a != "logs" && a != "log" && a != "l")

/-- JS `v || d` where `v` is a number-or-NaN: `NaN`, `0` and `-0` are falsy
and yield the default. -/
def jsOrDefault (v : Option Int) (d : Int) : Int :=
  match v with
  | none => d
  | some n => if n = 0 then d else n

/-- `const lines = parseInt(linesArg) || 50` (line 444); `parseInt` of a
missing argument (`undefined`) is `NaN`. -/
def logsLineCount (args : List String) : Int :=
  match logsArgPick args with
  | none => 50
  | some a => jsOrDefault (jsParseInt a) 50

/-- Every command spelling recognized by the `switch` of `main`
(lines 420-453); anything else falls to the default arm, which exits 1. -/
def knownCommands : List String :=
  ["start", "s", "stop", "halt", "restart", "r", "status", "st",
   "logs", "log", "l", "help", "--help", "-h", "h"]

/-- Environment of one CLI invocation: filesystem, liveness probe,
signal-failure flags, whether the daemon spawn throws, the spawned child
pid, and the readiness-detector environment of a daemon launch. -/
structure CliEnv where
  fs : Fs
  aliveAt : Nat → Int → Bool
  sigtermThrows : Bool
  sigkillThrows : Bool
  spawnThrows : Bool
  childPid : Int
  det : DetectorEnv

/-- The `StopEnv` of a CLI invocation. -/
def stopEnvOf (c : CliEnv) : StopEnv :=
  ⟨c.aliveAt, c.sigtermThrows, c.sigkillThrows⟩

/-- Process exit code of a daemon-mode `start` issued against filesystem
state `fs` with the liveness probe of second `tAlive`: already running →
`return false`, no `process.exit`, code 0; spawn throw → exit 1 (line 220);
otherwise the readiness detector decides (lines 125-216). -/
def startDaemonExit (c : CliEnv) (fs : Fs) (tAlive : Nat) : Nat :=
  if (getStatus fs (c.aliveAt tAlive)).running then 0
  else if c.spawnThrows then 1
  else (detectorRun c.det c.childPid).exitCode

/-- Final process exit code of `main` on the given argv tail (lines
414-459).  Branches that never call `process.exit` end with the implicit
exit code 0 — in particular the whole `stop` path: the return value of the stop call is discarded at line 427 and `stop` itself never exits, so a
failed stop still exits 0.  Foreground `start`, `status`, `logs` and `help`
likewise never call `process.exit`. -/
def mainExitCode (args : List String) (c : CliEnv) : Nat :=
  let cmd := args.headD ""
  let daemon := args.contains "-d" || args.contains "--daemon"
  if cmd == "start" || cmd == "s" then
    if daemon then startDaemonExit c c.fs 0 else 0
  else if cmd == "stop" || cmd == "halt" then 0
  else if cmd == "restart" || cmd == "r" then
    let v := restart ⟨c.aliveAt, c.sigtermThrows⟩ c.fs
    if daemon then startDaemonExit c v.fsAtStart 2 else 0
  else if cmd == "status" || cmd == "st" then 0
  else if cmd == "logs" || cmd == "log" || cmd == "l" then 0
  else if cmd == "help" || cmd == "--help" || cmd == "-h" || cmd == "h" then 0
  else 1

/-! ## Helper lemmas about the polling loops -/

/-- With the invariant `t + fuel = 31` maintained by the initial call of
`stop`, every terminating branch of the shutdown polling loop goes through
`removePidFile`, so the final filesystem has neither file. -/
theorem stopLoop_clears (env : StopEnv) (p : Int) (fs : Fs) :
    ∀ fuel t, 1 ≤ fuel → t + fuel = 31 →
      (stopLoop env p fs fuel t).1 = (⟨none, none⟩ : Fs) := by
  intro fuel
  induction fuel with
  | zero => intro t h1 _; omega
  | succ n ih =>
    intro t _ ht
    by_cases ha : env.aliveAt t p = false
    · simp [stopLoop, ha, removePidFile]
    · by_cases hm : maxStopAttempts ≤ t
      · simp [stopLoop, ha, hm, removePidFile]
      · have hn : 1 ≤ n := by simp [maxStopAttempts] at hm; omega
        simp [stopLoop, ha, hm]
        exact ih (t + 1) hn (by omega)

/-- A process that answers every liveness poll of the grace window leads the
shutdown polling loop to the forced branch: both files cleared, exactly one
SIGKILL recorded. -/
theorem stopLoop_all_alive (env : StopEnv) (p : Int) (fs : Fs) :
    ∀ fuel t, 1 ≤ fuel → t + fuel = 31 →
      (∀ u, t ≤ u → u ≤ 30 → env.aliveAt u p = true) →
      stopLoop env p fs fuel t = ((⟨none, none⟩ : Fs), [p], StopOutcome.forced) := by
  intro fuel
  induction fuel with
  | zero => intro t h1 _ _; omega
  | succ n ih =>
    intro t _ ht halive
    have ht30 : t ≤ 30 := by omega
    have ha : env.aliveAt t p = true := halive t le_rfl ht30
    by_cases hm : maxStopAttempts ≤ t
    · simp [stopLoop, ha, hm, removePidFile]
    · have hn : 1 ≤ n := by simp [maxStopAttempts] at hm; omega
      simp [stopLoop, ha, hm]
      exact ih (t + 1) hn (by omega) (fun u hu1 hu2 => halive u (by omega) hu2)

/-- A readiness environment in which every tick of the window finds the
child alive, no marker correlated to the spawned pid, and a signal-free log
drives the polling loop to the timeout resolution at tick 30. -/
theorem detectorLoop_timeout (env : DetectorEnv) (childPid : Int)
    (halive : ∀ t, 1 ≤ t → t ≤ 30 → env.aliveAt t = true)
    (hmark : ∀ t p port, 1 ≤ t → t ≤ 30 →
      env.markerAt t = some (MarkerContent.valid p port) → p ≠ childPid)
    (hlog : ∀ t, 1 ≤ t → t ≤ 30 → logScan (env.logAt t) = ScanResult.nothing) :
    ∀ fuel t, 1 ≤ fuel → 1 ≤ t → t + fuel = 31 →
      detectorLoop env childPid fuel t = ⟨0, false, [], 30, TickOutcome.timedOut⟩ := by
  intro fuel
  induction fuel with
  | zero => intro t h1 _ _; omega
  | succ n ih =>
    intro t _ h1t ht
    have ht30 : t ≤ 30 := by omega
    have ha := halive t h1t ht30
    have hr : detectTickRest env t =
        (if maxChecks ≤ t then TickOutcome.timedOut else TickOutcome.keepWaiting) := by
      simp [detectTickRest, hlog t h1t ht30]
    have htick : detectTick env childPid t =
        (if maxChecks ≤ t then TickOutcome.timedOut else TickOutcome.keepWaiting) := by
      cases hm : env.markerAt t with
      | none => simp [detectTick, ha, hm, hr]
      | some mc =>
        cases mc with
        | invalid => simp [detectTick, ha, hm, hr]
        | valid p port =>
          have hne : p ≠ childPid := hmark t p port h1t ht30 hm
          simp [detectTick, ha, hm, hne, hr]
    by_cases h30 : maxChecks ≤ t
    · have ht' : t = 30 := by simp [maxChecks] at h30; omega
      subst ht'
      simp [detectorLoop, htick, h30, tickResult]
    · have hn : 1 ≤ n := by simp [maxChecks] at h30; omega
      simp [detectorLoop, htick, h30]
      exact ih (t + 1) hn (by omega) (by omega)

/-! ## Claim theorems -/

/-- C3: when `stop()` finds a running process that stays alive through all
30 one-second liveness polls after the SIGTERM, exactly one SIGKILL is
attempted and the PID record (and marker) is cleared — regardless of the
value of `env.sigkillThrows`, which is universally quantified here and
never consulted by the model, mirroring the catch of line 282. -/
theorem stop_force_kill_once (env : StopEnv) (fs : Fs) (p : Int)
    (hrun : getStatus fs (env.aliveAt 0) = ⟨true, some p⟩)
    (hterm : env.sigtermThrows = false)
    (halive : ∀ t, 1 ≤ t → t ≤ 30 → env.aliveAt t p = true) :
    (stop env fs).killsTo = [p] ∧ (stop env fs).fs.pid_file = none ∧
    (stop env fs).fs.marker = none ∧ (stop env fs).outcome = StopOutcome.forced := by
  have hl := stopLoop_all_alive env p fs 30 1 (by omega) (by omega)
    (fun u hu1 hu2 => halive u hu1 hu2)
  simp [stop, hrun, hterm, maxStopAttempts, hl]

/-- Witness for C3: a pid-file of 5 with an immortal process. -/
theorem stop_force_kill_once_witness :
    (stop ⟨fun _ _ => true, false, false⟩ ⟨some "5", none⟩).killsTo = [5] ∧
    (stop ⟨fun _ _ => true, false, false⟩ ⟨some "5", none⟩).fs.pid_file = none ∧
    (stop ⟨fun _ _ => true, false, false⟩ ⟨some "5", none⟩).fs.marker = none ∧
    (stop ⟨fun _ _ => true, false, false⟩ ⟨some "5", none⟩).outcome = StopOutcome.forced :=
  stop_force_kill_once ⟨fun _ _ => true, false, false⟩ ⟨some "5", none⟩ 5
    (by decide) rfl (fun _ _ _ => rfl)

/-- C7: `stop()` on a not-running registry state removes both the stale PID
record and the marker file, returns false (the was-not-running outcome),
sends no signal of any kind, and ends in the `notRunning` outcome (no
error). -/
theorem stop_idempotent_not_running (env : StopEnv) (fs : Fs)
    (h : (getStatus fs (env.aliveAt 0)).running = false) :
    stop env fs = ⟨⟨none, none⟩, false, [], [], StopOutcome.notRunning⟩ := by
  rcases hst : getStatus fs (env.aliveAt 0) with ⟨r, q⟩
  rw [hst] at h
  simp only at h
  subst h
  simp [stop, hst, removePidFile]

/-- Witness for C7: a stale PID file naming a dead process. -/
theorem stop_idempotent_not_running_witness :
    stop ⟨fun _ _ => false, false, false⟩ ⟨some "999", none⟩ =
      ⟨⟨none, none⟩, false, [], [], StopOutcome.notRunning⟩ :=
  stop_idempotent_not_running ⟨fun _ _ => false, false, false⟩ ⟨some "999", none⟩ (by decide)

/-- C8: every completed `stop()` run that returns true (the stopped
outcome: the polling loop resolved gracefully or by forced kill) leaves
neither the PID file nor the startup-marker file in existence. -/
theorem stop_stopped_clears_files (env : StopEnv) (fs : Fs)
    (h : (stop env fs).retVal = true) :
    (stop env fs).fs.pid_file = none ∧ (stop env fs).fs.marker = none := by
  rcases hst : getStatus fs (env.aliveAt 0) with ⟨r, q⟩
  cases r with
  | false => exact absurd h (by simp [stop, hst])
  | true =>
    cases q with
    | none => exact absurd h (by simp [stop, hst])
    | some p =>
      by_cases hterm : env.sigtermThrows
      · exact absurd h (by simp [stop, hst, hterm])
      · have hl := stopLoop_clears env p fs 30 1 (by omega) (by omega)
        simp [stop, hst, hterm, maxStopAttempts, hl]

/-- Witness for C8: process dies right after the SIGTERM (first poll finds
it gone). -/
theorem stop_stopped_clears_files_witness :
    (stop ⟨fun t _ => t == 0, false, false⟩ ⟨some "8", none⟩).fs.pid_file = none ∧
    (stop ⟨fun t _ => t == 0, false, false⟩ ⟨some "8", none⟩).fs.marker = none :=
  stop_stopped_clears_files ⟨fun t _ => t == 0, false, false⟩ ⟨some "8", none⟩ (by decide)

/-- C10: a PID file whose content does not parse as an integer makes
`getPid` return NaN (not null), `getStatus` report not-running with a null
pid (NaN is falsy), and `start` pass its already-running guard; every
operation is total on the malformed record. -/
theorem malformed_pid_tolerated (fs : Fs) (c : String) (isRunning : Int → Bool) (newPid : Int)
    (hf : fs.pid_file = some c)
    (hp : jsParseInt (jsTrim c) = none) :
    getPid fs = PidVal.nan ∧ getStatus fs isRunning = ⟨false, none⟩ ∧
    (start fs isRunning newPid).rejected = false := by
  have hg : getPid fs = PidVal.nan := by simp [getPid, hf, hp]
  refine ⟨hg, ?_, ?_⟩
  · simp [getStatus, hg]
  · simp [start, getStatus, hg]

/-- C4: within one readiness tick the checks run in the fixed order
liveness, marker, log scan: a dead child resolves to `procDied` whatever
the marker or log say; a live child with a marker whose pid equals the
spawned pid resolves to `markerOk` for every possible log content (the log
function is universally quantified in that conjunct); the fallback log scan
depends only on the most recent 30 lines; and a tick-1 marker resolution
makes the whole run exit 0 at tick 1. -/
theorem readiness_marker_priority (env : DetectorEnv) (childPid port : Int) (t : Nat) :
    (env.aliveAt t = false → detectTick env childPid t = TickOutcome.procDied) ∧
    (env.aliveAt t = true →
      env.markerAt t = some (MarkerContent.valid childPid port) →
      ∀ lg : Nat → Option (List String),
        detectTick ⟨env.aliveAt, env.markerAt, lg, env.termThrows⟩ childPid t =
          TickOutcome.markerOk port) ∧
    (∀ ls ls2 : List String, recentLines ls = recentLines ls2 →
      logScan (some ls) = logScan (some ls2)) ∧
    (detectTick env childPid 1 = TickOutcome.markerOk port →
      (detectorRun env childPid).exitCode = 0 ∧
      (detectorRun env childPid).resolvedAt = 1 ∧
      (detectorRun env childPid).removedPid = false) := by
  refine ⟨?_, ?_, ?_, ?_⟩
  · intro h; simp [detectTick, h]
  · intro h1 h2 lg; simp [detectTick, h1, h2]
  · intro ls ls2 h; simp [logScan, recentHas, h]
  · intro h
    have e : detectorRun env childPid = tickResult childPid 1 (TickOutcome.markerOk port) := by
      rw [detectorRun, show maxChecks = Nat.succ 29 from rfl, detectorLoop, h]
    simp [e, tickResult]

/-- Witness for C4: marker `{pid 9, port 3000}` beats a log that contains a
failure needle, in the same tick. -/
theorem readiness_marker_priority_witness :
    detectTick ⟨fun _ => true, fun _ => some (MarkerContent.valid 9 3000),
      fun _ => some ["Failed to start server"], false⟩ 9 1 = TickOutcome.markerOk 3000 ∧
    (detectorRun ⟨fun _ => true, fun _ => some (MarkerContent.valid 9 3000),
      fun _ => some ["Failed to start server"], false⟩ 9).exitCode = 0 :=
  ⟨(readiness_marker_priority ⟨fun _ => true, fun _ => some (MarkerContent.valid 9 3000),
      fun _ => some ["Failed to start server"], false⟩ 9 3000 1).2.1 rfl rfl
      (fun _ => some ["Failed to start server"]),
   ((readiness_marker_priority ⟨fun _ => true, fun _ => some (MarkerContent.valid 9 3000),
      fun _ => some ["Failed to start server"], false⟩ 9 3000 1).2.2.2 (by decide)).1⟩

/-- C5: a background launch whose 30 poll ticks all find the child alive,
no marker correlated to the spawned pid, and a log with neither success nor
failure needles resolves to TIMEOUT at tick 30: exit code 0, the PID record
untouched, the marker untouched, no signal sent. -/
theorem readiness_timeout_soft (env : DetectorEnv) (childPid : Int)
    (halive : ∀ t, 1 ≤ t → t ≤ 30 → env.aliveAt t = true)
    (hmark : ∀ t p port, 1 ≤ t → t ≤ 30 →
      env.markerAt t = some (MarkerContent.valid p port) → p ≠ childPid)
    (hlog : ∀ t, 1 ≤ t → t ≤ 30 → logScan (env.logAt t) = ScanResult.nothing) :
    detectorRun env childPid = ⟨0, false, [], 30, TickOutcome.timedOut⟩ := by
  have h := detectorLoop_timeout env childPid halive hmark hlog 30 1
    (by omega) (by omega) (by omega)
  simpa [detectorRun, maxChecks] using h

/-- Witness for C5: immortal silent child, no marker, no log file. -/
theorem readiness_timeout_soft_witness :
    detectorRun ⟨fun _ => true, fun _ => none, fun _ => none, false⟩ 1 =
      ⟨0, false, [], 30, TickOutcome.timedOut⟩ :=
  readiness_timeout_soft ⟨fun _ => true, fun _ => none, fun _ => none, false⟩ 1
    (fun _ _ _ => rfl) (fun _ _ _ _ _ h => Option.noConfusion h) (fun _ _ _ => rfl)

/-- C6: a background launch whose first tick finds the child alive, no
marker correlated to the spawned pid, and a recent log window containing a
failure needle but no success needle resolves to FAILURE at that tick: the
PID record (and marker) is cleared, exactly one best-effort SIGTERM goes to
the child, and the exit code is 1 — for either value of `env.termThrows`,
which is universally quantified and never consulted, mirroring the empty
catch of lines 194-198. -/
theorem readiness_log_failure (env : DetectorEnv) (childPid : Int) (ls : List String)
    (halive : env.aliveAt 1 = true)
    (hmark : ∀ p port, env.markerAt 1 = some (MarkerContent.valid p port) → p ≠ childPid)
    (hlog : env.logAt 1 = some ls)
    (hnosucc : recentHas ls successNeedle = false)
    (hfail : failureNeedles.any (fun n => recentHas ls n) = true) :
    (detectorRun env childPid).exitCode = 1 ∧
    (detectorRun env childPid).removedPid = true ∧
    (detectorRun env childPid).sigtermsTo = [childPid] ∧
    (detectorRun env childPid).resolvedAt = 1 := by
  have hscan : logScan (env.logAt 1) = ScanResult.failure := by
    simp [logScan, hlog, hnosucc, hfail]
  have hr : detectTickRest env 1 = TickOutcome.logFailure := by
    simp [detectTickRest, hscan]
  have htick : detectTick env childPid 1 = TickOutcome.logFailure := by
    cases hm : env.markerAt 1 with
    | none => simp [detectTick, halive, hm, hr]
    | some mc =>
      cases mc with
      | invalid => simp [detectTick, halive, hm, hr]
      | valid p port => simp [detectTick, halive, hm, hmark p port hm, hr]
  have e : detectorRun env childPid = tickResult childPid 1 TickOutcome.logFailure := by
    rw [detectorRun, show maxChecks = Nat.succ 29 from rfl, detectorLoop, htick]
  simp [e, tickResult]

/-- Witness for C6: the log line mentions a Redis connection failure before
any marker appears; holds with `termThrows = true` (the SIGTERM error is
ignored). -/
theorem readiness_log_failure_witness :
    (detectorRun ⟨fun _ => true, fun _ => none,
      fun _ => some ["boom Failed to connect to Redis"], true⟩ 4).exitCode = 1 ∧
    (detectorRun ⟨fun _ => true, fun _ => none,
      fun _ => some ["boom Failed to connect to Redis"], true⟩ 4).removedPid = true ∧
    (detectorRun ⟨fun _ => true, fun _ => none,
      fun _ => some ["boom Failed to connect to Redis"], true⟩ 4).sigtermsTo = [4] ∧
    (detectorRun ⟨fun _ => true, fun _ => none,
      fun _ => some ["boom Failed to connect to Redis"], true⟩ 4).resolvedAt = 1 :=
  readiness_log_failure ⟨fun _ => true, fun _ => none,
      fun _ => some ["boom Failed to connect to Redis"], true⟩ 4
    ["boom Failed to connect to Redis"] rfl (fun _ _ h => Option.noConfusion h) rfl
    (by decide) (by decide)

/-- C1 counterexample: `restart()` on a running instance (pid 100) whose
process survives the first two seconds — at the instant the delayed
`start` of line 302 fires, the PID file still holds pid 100 and pid 100 is
still alive, refuting the claim that the stop operation runs to completion
(PID file absent, old pid dead) before `start` is invoked. -/
theorem restart_claim_counterexample :
    (restart ⟨fun _ _ => true, false⟩ ⟨some "100", none⟩).fsAtStart.pid_file = some "100" ∧
    (restart ⟨fun _ _ => true, false⟩ ⟨some "100", none⟩).oldPid = some 100 ∧
    (restart ⟨fun _ _ => true, false⟩ ⟨some "100", none⟩).oldPidAliveAtStart = true := by
  decide

/-- C1 amended: `restart(daemonMode)` invokes `stop()` and then, after a
fixed 2000 ms delay, `start(daemonMode)`; the stop operation is complete at
that instant — PID file and marker absent, old pid no longer alive — only
when the old process has already died by the second one-second stop poll
(and the SIGTERM did not throw).  When the process survives longer, `start`
fires while the old pid is still recorded and alive
(`restart_claim_counterexample`). -/
theorem restart_stop_completion_amended (env : RestartEnv) (fs : Fs) (p : Int)
    (hrun : getStatus fs (env.aliveAt 0) = ⟨true, some p⟩)
    (hterm : env.sigtermThrows = false)
    (hdead : env.aliveAt 2 p = false) :
    (restart env fs).fsAtStart.pid_file = none ∧
    (restart env fs).fsAtStart.marker = none ∧
    (restart env fs).oldPidAliveAtStart = false ∧
    (restart env fs).delayMs = 2000 := by
  by_cases h1 : env.aliveAt 1 p
  · simp [restart, hrun, hterm, h1, hdead, removePidFile]
  · simp [restart, hrun, hterm, h1, hdead, removePidFile]

/-- Witness for the amended C1: pid 7, alive only at the initial probe. -/
theorem restart_stop_completion_amended_witness :
    (restart ⟨fun t _ => t == 0, false⟩ ⟨some "7", none⟩).fsAtStart.pid_file = none ∧
    (restart ⟨fun t _ => t == 0, false⟩ ⟨some "7", none⟩).fsAtStart.marker = none ∧
    (restart ⟨fun t _ => t == 0, false⟩ ⟨some "7", none⟩).oldPidAliveAtStart = false ∧
    (restart ⟨fun t _ => t == 0, false⟩ ⟨some "7", none⟩).delayMs = 2000 :=
  restart_stop_completion_amended ⟨fun t _ => t == 0, false⟩ ⟨some "7", none⟩ 7
    (by decide) rfl (by decide)

/-- C2 counterexample: a `stop` invocation whose SIGTERM throws — the stop
operation fails (`termFailed`, `stop()` returns false) — yet `main` exits
with code 0, because the dispatcher discards the return value of the stop
call and nothing on the stop path calls `process.exit`; the claim requires
a non-zero exit code whenever the stop operation fails. -/
theorem stop_failure_exit_zero :
    mainExitCode ["stop"]
      ⟨⟨some "100", none⟩, fun _ _ => true, true, false, false, 0,
        ⟨fun _ => true, fun _ => none, fun _ => none, false⟩⟩ = 0 ∧
    (stop (stopEnvOf ⟨⟨some "100", none⟩, fun _ _ => true, true, false, false, 0,
        ⟨fun _ => true, fun _ => none, fun _ => none, false⟩⟩)
      ⟨some "100", none⟩).outcome = StopOutcome.termFailed := by
  decide

/-- C2 amended: the exit code is 0 on success (foreground start, marker or
log success of a daemon start) and on soft startup timeout, and non-zero
for a failed background launch (spawn throw or detector failure) and for an
unrecognized command; the stop path always exits 0, even when the stop
operation itself fails (`stop_failure_exit_zero`). -/
theorem exit_code_policy :
    (∀ (c : CliEnv) (rest : List String), mainExitCode ("stop" :: rest) c = 0) ∧
    (∀ (c : CliEnv) (rest : List String), mainExitCode ("halt" :: rest) c = 0) ∧
    (∀ (c : CliEnv) (rest : List String),
      (getStatus c.fs (c.aliveAt 0)).running = false → c.spawnThrows = false →
      (detectorRun c.det c.childPid).exitCode = 0 →
      mainExitCode ("start" :: "-d" :: rest) c = 0) ∧
    (∀ (c : CliEnv) (rest : List String),
      (getStatus c.fs (c.aliveAt 0)).running = false → c.spawnThrows = false →
      (detectorRun c.det c.childPid).exitCode = 1 →
      mainExitCode ("start" :: "-d" :: rest) c = 1) ∧
    (∀ (c : CliEnv) (rest : List String),
      (getStatus c.fs (c.aliveAt 0)).running = false → c.spawnThrows = true →
      mainExitCode ("start" :: "-d" :: rest) c = 1) ∧
    (∀ (c : CliEnv) (s : String) (rest : List String),
      s ∉ knownCommands → mainExitCode (s :: rest) c = 1) := by
  refine ⟨fun c rest => rfl, fun c rest => rfl, ?_, ?_, ?_, ?_⟩
  · intro c rest h1 h2 h3
    show startDaemonExit c c.fs 0 = 0
    simp [startDaemonExit, h1, h2, h3]
  · intro c rest h1 h2 h3
    show startDaemonExit c c.fs 0 = 1
    simp [startDaemonExit, h1, h2, h3]
  · intro c rest h1 h2
    show startDaemonExit c c.fs 0 = 1
    simp [startDaemonExit, h1, h2]
  · intro c s rest h
    simp only [knownCommands, List.mem_cons, List.not_mem_nil, or_false, not_or] at h
    obtain ⟨h1, h2, h3, h4, h5, h6, h7, h8, h9, h10, h11, h12, h13, h14, h15⟩ := h
    simp [mainExitCode, List.headD, Bool.or_eq_true, beq_iff_eq,
      h1, h2, h3, h4, h5, h6, h7, h8, h9, h10, h11, h12, h13, h14, h15]

/-- Witness for the amended C2: a concrete environment for each exercised
arm — stop exits 0, a marker-confirmed daemon start exits 0, a daemon start
whose child dies exits 1, an unknown command exits 1. -/
theorem exit_code_policy_witness :
    mainExitCode ["stop"]
      ⟨⟨some "100", none⟩, fun _ _ => true, false, false, false, 0,
        ⟨fun _ => true, fun _ => none, fun _ => none, false⟩⟩ = 0 ∧
    mainExitCode ["start", "-d"]
      ⟨⟨none, none⟩, fun _ _ => false, false, false, false, 7,
        ⟨fun _ => true, fun _ => some (MarkerContent.valid 7 3000), fun _ => none, false⟩⟩ = 0 ∧
    mainExitCode ["start", "-d"]
      ⟨⟨none, none⟩, fun _ _ => false, false, false, false, 7,
        ⟨fun _ => false, fun _ => none, fun _ => none, false⟩⟩ = 1 ∧
    mainExitCode ["frobnicate"]
      ⟨⟨none, none⟩, fun _ _ => false, false, false, false, 7,
        ⟨fun _ => true, fun _ => none, fun _ => none, false⟩⟩ = 1 :=
  ⟨exit_code_policy.1 _ [],
   exit_code_policy.2.2.1 _ [] (by decide) rfl (by decide),
   exit_code_policy.2.2.2.1 _ [] (by decide) rfl (by decide),
   exit_code_policy.2.2.2.2.2 _ "frobnicate" [] (by decide)⟩

/-- C9 counterexample: the argument string consisting of a space, a minus
sign and the digit 5 does not start with a dash, so the finder of line 441
picks it up, and `parseInt` (which skips leading whitespace) yields -5 — a
truthy value that is not replaced by the default 50, so the requested line
count is negative, refuting the always-positive part of the claim. -/
theorem logs_count_negative_counterexample :
    logsLineCount ["logs", " -5"] = -5 ∧ ¬ (0 < logsLineCount ["logs", " -5"]) := by
  decide

/-- C9 amended: a positional line-count argument that parses to 0 or does
not parse as an integer (`parseInt` gives NaN) is replaced by the default
50, and a well-parsing nonzero argument is used as is — so the requested
line count is always a nonzero integer, but it can be negative when the
argument carries leading whitespace before a minus sign
(`logs_count_negative_counterexample`). -/
theorem logs_count_policy (args : List String) :
    logsLineCount args ≠ 0 ∧
    (logsArgPick args = none → logsLineCount args = 50) ∧
    (∀ a, logsArgPick args = some a → jsParseInt a = none → logsLineCount args = 50) ∧
    (∀ a, logsArgPick args = some a → jsParseInt a = some 0 → logsLineCount args = 50) ∧
    (∀ a n, logsArgPick args = some a → jsParseInt a = some n → n ≠ 0 →
      logsLineCount args = n) := by
  refine ⟨?_, ?_, ?_, ?_, ?_⟩
  · cases hp : logsArgPick args with
    | none => simp [logsLineCount, hp]
    | some a =>
      cases hj : jsParseInt a with
      | none => simp [logsLineCount, hp, hj, jsOrDefault]
      | some n =>
        by_cases hn : n = 0
        · simp [logsLineCount, hp, hj, jsOrDefault, hn]
        · simp [logsLineCount, hp, hj, jsOrDefault, hn]
  · intro h; simp [logsLineCount, h]
  · intro a h1 h2; simp [logsLineCount, h1, h2, jsOrDefault]
  · intro a h1 h2; simp [logsLineCount, h1, h2, jsOrDefault]
  · intro a n h1 h2 hn; simp [logsLineCount, h1, h2, jsOrDefault, hn]

/-- Witness for the amended C9: a non-numeric argument falls back to 50; a
numeric argument is never silently zero. -/
theorem logs_count_policy_witness :
    logsLineCount ["logs", "abc"] = 50 ∧ logsLineCount ["logs", "120"] ≠ 0 :=
  ⟨(logs_count_policy ["logs", "abc"]).2.2.1 "abc" (by decide) (by decide),
   (logs_count_policy ["logs", "120"]).1⟩

/-- Witness for C10: PID file containing the text abc. -/
theorem malformed_pid_tolerated_witness :
    getPid ⟨some "abc", none⟩ = PidVal.nan ∧
    getStatus ⟨some "abc", none⟩ (fun _ => true) = ⟨false, none⟩ ∧
    (start ⟨some "abc", none⟩ (fun _ => true) 42).rejected = false :=
  malformed_pid_tolerated ⟨some "abc", none⟩ "abc" (fun _ => true) 42 rfl (by decide)

end ManageJs
